import Mathlib

/-
Verification of the shader-compiler CLI driver (src/src/compiler/src/main.cpp).

The driver is a linear pipeline: parse command-line arguments, acquire the
shader source (file or standard input), invoke the external shaderc library,
and either write the resulting 32-bit words to standard output or report a
diagnostic on standard error.

The embedding below models:
  - the shaderc enumerations that the driver mentions,
  - `getShaderKind` (main.cpp lines 11-19) literally,
  - the argument-parsing loop (lines 32-43) as a recursive scan `parseArgs`,
  - source acquisition (lines 47-62) as `readSource` over an abstract
    file system `fs : String → Option String` (`none` = the file cannot be
    opened) and an abstract standard-input string,
  - the whole of `main` as `runDriver`, parameterized by an abstract
    compilation oracle standing for `shaderc::Compiler::CompileGlslToSpv`.

The observable outcome of a run is captured by `DriverOutput`: the process
exit code, the bytes written to standard output, the text written to
standard error, whether the error stream was flushed, and whether the
external compiler was invoked.
-/

namespace ShaderCLI

/-- The `shaderc_shader_kind` values used by main.cpp. -/
inductive ShaderKind where
  | vertex_shader
  | fragment_shader
  | compute_shader
  | geometry_shader
  | tess_control_shader
  | tess_evaluation_shader
  | glsl_infer_from_source
deriving DecidableEq, Repr

/-- `getShaderKind` (main.cpp lines 11-19): map a `-t` token to a shader kind;
any unrecognized token yields `shaderc_glsl_infer_from_source`. -/
def getShaderKind (type : String) : ShaderKind :=
  if type = "vertex" then ShaderKind.vertex_shader
  else if type = "fragment" then ShaderKind.fragment_shader
  else if type = "compute" then ShaderKind.compute_shader
  else if type = "geometry" then ShaderKind.geometry_shader
  else if type = "tess_control" then ShaderKind.tess_control_shader
  else if type = "tess_evaluation" then ShaderKind.tess_evaluation_shader
  else ShaderKind.glsl_infer_from_source

/-- The `shaderc_optimization_level` enumeration. -/
inductive OptimizationLevel where
  | zero
  | size
  | performance
deriving DecidableEq, Repr

/-- The subset of `shaderc::CompileOptions` state the driver touches:
only the optimization level, unset by default. -/
structure CompileOptions where
  optimizationLevel : Option OptimizationLevel
deriving DecidableEq, Repr

/-- Fresh `shaderc::CompileOptions` (main.cpp line 71): no level set. -/
def CompileOptions.default : CompileOptions := ⟨none⟩

/-- An abstract `shaderc::SpvCompilationResult`: a numeric status
(0 = `shaderc_compilation_status_success`), an error message, and the
sequence of 32-bit words of the compiled module. -/
structure SpvCompilationResult where
  status : Nat
  errorMessage : String
  words : List Nat
deriving DecidableEq, Repr

/-- The local variables of `main` set up in lines 26-29. -/
structure CLIOptions where
  shaderKind : ShaderKind
  optimize : Bool
  inputName : String
  inputFile : String
deriving DecidableEq, Repr

/-- Defaults of main.cpp lines 26-29: infer the stage, no optimization,
name "shader", no input file. -/
def defaultCLIOptions : CLIOptions :=
  ⟨ShaderKind.glsl_infer_from_source, false, "shader", ""⟩

/-- The argument loop of main.cpp lines 32-43.  Each step examines the
head argument; `-t`, `-n` and `-f` additionally consume the following
argument when one exists (the `i + 1 < argc` guard), and anything else
falls through the `else if` chain with no effect. -/
def parseArgs : List String → CLIOptions → CLIOptions
  | [], opts => opts
  | "-t" :: v :: rest, opts =>
      parseArgs rest { opts with shaderKind := getShaderKind v }
  | "-O" :: rest, opts =>
      parseArgs rest { opts with optimize := true }
  | "-n" :: v :: rest, opts =>
      parseArgs rest { opts with inputName := v }
  | "-f" :: v :: rest, opts =>
      parseArgs rest { opts with inputFile := v }
  | _ :: rest, opts => parseArgs rest opts

/-- Source acquisition, main.cpp lines 47-62.  With a nonempty `-f` path the
file is opened through the abstract file system (`none` models an
unopenable file and produces the error message of line 51); otherwise the
whole standard-input stream is the source. -/
def readSource (fs : String → Option String) (stdin : String)
    (inputFile : String) : Except String String :=
  if inputFile ≠ "" then
    match fs inputFile with
    | none => Except.error ("Error: Could not open file: " ++ inputFile ++ "\n")
    | some contents => Except.ok contents
  else
    Except.ok stdin

/-- Lines 74-76: request the performance preset exactly when `-O` was seen. -/
def mkCompileOptions (optimize : Bool) : CompileOptions :=
  if optimize then ⟨some OptimizationLevel.performance⟩ else CompileOptions.default

/-- The four bytes of one 32-bit word in native (little-endian) order, as
`std::cout.write` emits them from the in-memory `uint32_t` array. -/
def wordBytes (w : Nat) : List Nat :=
  [w % 256, w / 256 % 256, w / 65536 % 256, w / 16777216 % 256]

/-- main.cpp lines 93-95: the byte stream of the word sequence, with no
framing and no trailing metadata. -/
def serializeWords : List Nat → List Nat
  | [] => []
  | w :: ws => wordBytes w ++ serializeWords ws

/-- The diagnostic text of main.cpp lines 84-85 for a failed compilation. -/
def compilationErrorMessage (status : Nat) (errorMessage : String) : String :=
  "Compilation error (status code: " ++ toString status ++ ")\n" ++
    "Error message: \"" ++ errorMessage ++ "\"\n"

/-- The observable outcome of one driver run: exit code, bytes on standard
output, text on standard error, whether standard error was flushed, and
whether the external compiler was invoked. -/
structure DriverOutput where
  exitCode : Nat
  stdout : List Nat
  stderr : String
  stderrFlushed : Bool
  compilerInvoked : Bool
deriving DecidableEq, Repr

/-- `main` (main.cpp lines 20-98), parameterized by the compilation oracle
`compile` (the external library call of lines 79-80), the file system and
the standard-input contents.  `std::endl` both terminates the line and
flushes, so every diagnostic path has `stderrFlushed = true`. -/
def runDriver
    (compile : String → ShaderKind → String → CompileOptions → SpvCompilationResult)
    (fs : String → Option String) (stdin : String)
    (args : List String) : DriverOutput :=
  let opts := parseArgs args defaultCLIOptions
  match readSource fs stdin opts.inputFile with
  | Except.error msg => ⟨1, [], msg, true, false⟩
  | Except.ok shaderSource =>
    if shaderSource = "" then
      ⟨1, [], "Error: No shader source provided\n", true, false⟩
    else
      let result := compile shaderSource opts.shaderKind opts.inputName
        (mkCompileOptions opts.optimize)
      if result.status ≠ 0 then
        ⟨1, [], compilationErrorMessage result.status result.errorMessage,
          true, true⟩
      else
        ⟨0, serializeWords result.words, "", false, true⟩

/-- Each word contributes exactly four bytes. -/
theorem serializeWords_length (ws : List Nat) :
    (serializeWords ws).length = 4 * ws.length := by
  induction ws with
  | nil => rfl
  | cons w ws ih => simp [serializeWords, wordBytes, ih]; omega

/-- An argument matching none of `-t`, `-O`, `-n`, `-f` falls through the
whole `else if` chain: the scan continues on the rest with the same state. -/
theorem parseArgs_skip (x : String) (rest : List String) (opts : CLIOptions)
    (h1 : x ≠ "-t") (h2 : x ≠ "-O") (h3 : x ≠ "-n") (h4 : x ≠ "-f") :
    parseArgs (x :: rest) opts = parseArgs rest opts := by
  cases rest with
  | nil =>
      rw [parseArgs.eq_def]
      simp [h1, h2, h3, h4]
  | cons y ys =>
      rw [parseArgs.eq_def]
      simp [h1, h2, h3, h4]

/-- The scan changes `optimize` only on encountering `-O`. -/
theorem parseArgs_optimize_of_not_mem (l : List String) (opts : CLIOptions)
    (h : "-O" ∉ l) : (parseArgs l opts).optimize = opts.optimize := by
  induction l, opts using parseArgs.induct with
  | case1 opts => rfl
  | case2 v rest opts ih =>
      rw [parseArgs.eq_2]
      exact ih fun hm => h (List.mem_cons_of_mem _ (List.mem_cons_of_mem _ hm))
  | case3 rest opts ih =>
      exact absurd (List.mem_cons_self _ _) h
  | case4 v rest opts ih =>
      rw [parseArgs.eq_4]
      exact ih fun hm => h (List.mem_cons_of_mem _ (List.mem_cons_of_mem _ hm))
  | case5 v rest opts ih =>
      rw [parseArgs.eq_5]
      exact ih fun hm => h (List.mem_cons_of_mem _ (List.mem_cons_of_mem _ hm))
  | case6 x rest opts n1 n2 n3 n4 ih =>
      rw [parseArgs.eq_6 _ _ _ n1 n2 n3 n4]
      exact ih fun hm => h (List.mem_cons_of_mem _ hm)

/-- The scan never resets `optimize`: once true it stays true. -/
theorem parseArgs_optimize_mono (l : List String) (opts : CLIOptions)
    (h : opts.optimize = true) : (parseArgs l opts).optimize = true := by
  induction l, opts using parseArgs.induct with
  | case1 opts => exact h
  | case2 v rest opts ih => rw [parseArgs.eq_2]; exact ih h
  | case3 rest opts ih => rw [parseArgs.eq_3]; exact ih rfl
  | case4 v rest opts ih => rw [parseArgs.eq_4]; exact ih h
  | case5 v rest opts ih => rw [parseArgs.eq_5]; exact ih h
  | case6 x rest opts n1 n2 n3 n4 ih =>
      rw [parseArgs.eq_6 _ _ _ n1 n2 n3 n4]
      exact ih h

/-- If the scan ends with `optimize` set, `-O` occurred among the arguments
(or it was already set when the scan started). -/
theorem parseArgs_optimize_mem (l : List String) (opts : CLIOptions)
    (h : (parseArgs l opts).optimize = true) :
    "-O" ∈ l ∨ opts.optimize = true := by
  induction l, opts using parseArgs.induct with
  | case1 opts => exact Or.inr h
  | case2 v rest opts ih =>
      rw [parseArgs.eq_2] at h
      rcases ih h with hm | ho
      · exact Or.inl (List.mem_cons_of_mem _ (List.mem_cons_of_mem _ hm))
      · exact Or.inr ho
  | case3 rest opts ih => exact Or.inl (List.mem_cons_self _ _)
  | case4 v rest opts ih =>
      rw [parseArgs.eq_4] at h
      rcases ih h with hm | ho
      · exact Or.inl (List.mem_cons_of_mem _ (List.mem_cons_of_mem _ hm))
      · exact Or.inr ho
  | case5 v rest opts ih =>
      rw [parseArgs.eq_5] at h
      rcases ih h with hm | ho
      · exact Or.inl (List.mem_cons_of_mem _ (List.mem_cons_of_mem _ hm))
      · exact Or.inr ho
  | case6 x rest opts n1 n2 n3 n4 ih =>
      rw [parseArgs.eq_6 _ _ _ n1 n2 n3 n4] at h
      rcases ih h with hm | ho
      · exact Or.inl (List.mem_cons_of_mem _ hm)
      · exact Or.inr ho

/-- The scan changes `inputName` only on encountering `-n`. -/
theorem parseArgs_inputName_of_not_mem (l : List String) (opts : CLIOptions)
    (h : "-n" ∉ l) : (parseArgs l opts).inputName = opts.inputName := by
  induction l, opts using parseArgs.induct with
  | case1 opts => rfl
  | case2 v rest opts ih =>
      rw [parseArgs.eq_2]
      exact ih fun hm => h (List.mem_cons_of_mem _ (List.mem_cons_of_mem _ hm))
  | case3 rest opts ih =>
      rw [parseArgs.eq_3]
      exact ih fun hm => h (List.mem_cons_of_mem _ hm)
  | case4 v rest opts ih =>
      exact absurd (List.mem_cons_self _ _) h
  | case5 v rest opts ih =>
      rw [parseArgs.eq_5]
      exact ih fun hm => h (List.mem_cons_of_mem _ (List.mem_cons_of_mem _ hm))
  | case6 x rest opts n1 n2 n3 n4 ih =>
      rw [parseArgs.eq_6 _ _ _ n1 n2 n3 n4]
      exact ih fun hm => h (List.mem_cons_of_mem _ hm)

/-- The scan changes `inputFile` only on encountering `-f`. -/
theorem parseArgs_inputFile_of_not_mem (l : List String) (opts : CLIOptions)
    (h : "-f" ∉ l) : (parseArgs l opts).inputFile = opts.inputFile := by
  induction l, opts using parseArgs.induct with
  | case1 opts => rfl
  | case2 v rest opts ih =>
      rw [parseArgs.eq_2]
      exact ih fun hm => h (List.mem_cons_of_mem _ (List.mem_cons_of_mem _ hm))
  | case3 rest opts ih =>
      rw [parseArgs.eq_3]
      exact ih fun hm => h (List.mem_cons_of_mem _ hm)
  | case4 v rest opts ih =>
      rw [parseArgs.eq_4]
      exact ih fun hm => h (List.mem_cons_of_mem _ (List.mem_cons_of_mem _ hm))
  | case5 v rest opts ih =>
      exact absurd (List.mem_cons_self _ _) h
  | case6 x rest opts n1 n2 n3 n4 ih =>
      rw [parseArgs.eq_6 _ _ _ n1 n2 n3 n4]
      exact ih fun hm => h (List.mem_cons_of_mem _ hm)

/-- The scan changes `shaderKind` only on encountering `-t`. -/
theorem parseArgs_shaderKind_of_not_mem (l : List String) (opts : CLIOptions)
    (h : "-t" ∉ l) : (parseArgs l opts).shaderKind = opts.shaderKind := by
  induction l, opts using parseArgs.induct with
  | case1 opts => rfl
  | case2 v rest opts ih =>
      exact absurd (List.mem_cons_self _ _) h
  | case3 rest opts ih =>
      rw [parseArgs.eq_3]
      exact ih fun hm => h (List.mem_cons_of_mem _ hm)
  | case4 v rest opts ih =>
      rw [parseArgs.eq_4]
      exact ih fun hm => h (List.mem_cons_of_mem _ (List.mem_cons_of_mem _ hm))
  | case5 v rest opts ih =>
      rw [parseArgs.eq_5]
      exact ih fun hm => h (List.mem_cons_of_mem _ (List.mem_cons_of_mem _ hm))
  | case6 x rest opts n1 n2 n3 n4 ih =>
      rw [parseArgs.eq_6 _ _ _ n1 n2 n3 n4]
      exact ih fun hm => h (List.mem_cons_of_mem _ hm)

/-- A file system in which no file can be opened. -/
def noFile : String → Option String := fun _ => none

/-- A compilation oracle that always succeeds with a two-word module. -/
def constCompileOk :
    String → ShaderKind → String → CompileOptions → SpvCompilationResult :=
  fun _ _ _ _ => ⟨0, "", [119734787, 50331648]⟩

/-- A compilation oracle that always fails with status 2. -/
def constCompileFail :
    String → ShaderKind → String → CompileOptions → SpvCompilationResult :=
  fun _ _ _ _ => ⟨2, "syntax error at line 1", []⟩

/-- A compilation oracle that succeeds exactly when the performance
optimization preset was requested. -/
def probeOptCompile :
    String → ShaderKind → String → CompileOptions → SpvCompilationResult :=
  fun _ _ _ opts =>
    if opts.optimizationLevel = some OptimizationLevel.performance then
      ⟨0, "", []⟩
    else
      ⟨1, "no optimization requested", []⟩

/-- A compilation oracle whose output depends on the logical input name. -/
def probeNameCompile :
    String → ShaderKind → String → CompileOptions → SpvCompilationResult :=
  fun _ _ name _ => ⟨0, "", [name.length]⟩

/-- C1: for every compilation that the external library reports as
successful (status 0 on a nonempty acquired source), the driver writes to
standard output exactly the byte sequence of the resulting 32-bit words in
native byte order with no framing or trailing metadata, exits with code 0,
writes nothing to standard error, and the number of bytes written is a
multiple of 4. -/
theorem c1_success_emits_exact_words
    (compile : String → ShaderKind → String → CompileOptions → SpvCompilationResult)
    (fs : String → Option String) (stdin : String) (args : List String)
    (src : String)
    (hread : readSource fs stdin (parseArgs args defaultCLIOptions).inputFile =
      Except.ok src)
    (hne : src ≠ "")
    (hok : (compile src (parseArgs args defaultCLIOptions).shaderKind
      (parseArgs args defaultCLIOptions).inputName
      (mkCompileOptions (parseArgs args defaultCLIOptions).optimize)).status = 0) :
    runDriver compile fs stdin args =
      ⟨0, serializeWords (compile src (parseArgs args defaultCLIOptions).shaderKind
        (parseArgs args defaultCLIOptions).inputName
        (mkCompileOptions (parseArgs args defaultCLIOptions).optimize)).words,
        "", false, true⟩ ∧
    (runDriver compile fs stdin args).stdout.length % 4 = 0 := by
  have key : runDriver compile fs stdin args =
      ⟨0, serializeWords (compile src (parseArgs args defaultCLIOptions).shaderKind
        (parseArgs args defaultCLIOptions).inputName
        (mkCompileOptions (parseArgs args defaultCLIOptions).optimize)).words,
        "", false, true⟩ := by
    simp only [runDriver, hread]
    rw [if_neg hne, if_neg (fun hb => hb hok)]
  refine ⟨key, ?_⟩
  rw [key]
  simp only [serializeWords_length]
  exact Nat.mul_mod_right 4 _

/-- C1 witness: a concrete successful run emitting two words (eight bytes). -/
theorem c1_witness :
    runDriver constCompileOk noFile "void main() ..." [] =
      ⟨0, serializeWords (constCompileOk "void main() ..."
        (parseArgs ([] : List String) defaultCLIOptions).shaderKind
        (parseArgs ([] : List String) defaultCLIOptions).inputName
        (mkCompileOptions (parseArgs ([] : List String) defaultCLIOptions).optimize)).words,
        "", false, true⟩ ∧
    (runDriver constCompileOk noFile "void main() ..." []).stdout.length % 4 = 0 :=
  c1_success_emits_exact_words constCompileOk noFile "void main() ..." []
    "void main() ..." rfl (by decide) rfl

/-- C2: whenever the external compilation call returns a non-success
status, the driver reports the numeric status code and the library's error
message verbatim on the diagnostic stream (in the fixed two-line format of
`compilationErrorMessage`), flushes that stream, exits with code 1, and
writes nothing to standard output. -/
theorem c2_compile_error_reported
    (compile : String → ShaderKind → String → CompileOptions → SpvCompilationResult)
    (fs : String → Option String) (stdin : String) (args : List String)
    (src : String)
    (hread : readSource fs stdin (parseArgs args defaultCLIOptions).inputFile =
      Except.ok src)
    (hne : src ≠ "")
    (hbad : (compile src (parseArgs args defaultCLIOptions).shaderKind
      (parseArgs args defaultCLIOptions).inputName
      (mkCompileOptions (parseArgs args defaultCLIOptions).optimize)).status ≠ 0) :
    runDriver compile fs stdin args =
      ⟨1, [], compilationErrorMessage
        (compile src (parseArgs args defaultCLIOptions).shaderKind
          (parseArgs args defaultCLIOptions).inputName
          (mkCompileOptions (parseArgs args defaultCLIOptions).optimize)).status
        (compile src (parseArgs args defaultCLIOptions).shaderKind
          (parseArgs args defaultCLIOptions).inputName
          (mkCompileOptions (parseArgs args defaultCLIOptions).optimize)).errorMessage,
        true, true⟩ := by
  simp only [runDriver, hread]
  rw [if_neg hne, if_pos hbad]

/-- C2 witness: a concrete failing compilation (status 2). -/
theorem c2_witness :
    runDriver constCompileFail noFile "bad source" [] =
      ⟨1, [], compilationErrorMessage
        (constCompileFail "bad source"
          (parseArgs ([] : List String) defaultCLIOptions).shaderKind
          (parseArgs ([] : List String) defaultCLIOptions).inputName
          (mkCompileOptions (parseArgs ([] : List String) defaultCLIOptions).optimize)).status
        (constCompileFail "bad source"
          (parseArgs ([] : List String) defaultCLIOptions).shaderKind
          (parseArgs ([] : List String) defaultCLIOptions).inputName
          (mkCompileOptions (parseArgs ([] : List String) defaultCLIOptions).optimize)).errorMessage,
        true, true⟩ :=
  c2_compile_error_reported constCompileFail noFile "bad source" []
    "bad source" rfl (by decide) (by decide)

/-- C3: whenever the acquired source buffer is empty, the driver exits
with code 1, writes exactly the line "Error: No shader source provided"
to the diagnostic stream, writes nothing to standard output, and does not
invoke the external compiler. -/
theorem c3_empty_source_rejected
    (compile : String → ShaderKind → String → CompileOptions → SpvCompilationResult)
    (fs : String → Option String) (stdin : String) (args : List String)
    (hread : readSource fs stdin (parseArgs args defaultCLIOptions).inputFile =
      Except.ok "") :
    runDriver compile fs stdin args =
      ⟨1, [], "Error: No shader source provided\n", true, false⟩ := by
  simp only [runDriver, hread]
  simp

/-- C3 witness: empty standard input with no file argument. -/
theorem c3_witness :
    runDriver constCompileOk noFile "" [] =
      ⟨1, [], "Error: No shader source provided\n", true, false⟩ :=
  c3_empty_source_rejected constCompileOk noFile "" [] rfl

/-- C4: whenever `-f` supplies a nonempty path that cannot be opened, the
driver writes "Error: Could not open file: " followed by the path to the
diagnostic stream, exits with code 1, writes nothing to standard output,
and never invokes the external compiler. -/
theorem c4_unopenable_file_rejected
    (compile : String → ShaderKind → String → CompileOptions → SpvCompilationResult)
    (fs : String → Option String) (stdin : String) (args : List String)
    (hpath : (parseArgs args defaultCLIOptions).inputFile ≠ "")
    (hfs : fs (parseArgs args defaultCLIOptions).inputFile = none) :
    runDriver compile fs stdin args =
      ⟨1, [], "Error: Could not open file: " ++
        (parseArgs args defaultCLIOptions).inputFile ++ "\n", true, false⟩ := by
  simp only [runDriver, readSource, if_pos hpath, hfs]

/-- C4 witness: `-f missing.glsl` on a file system with no openable file. -/
theorem c4_witness :
    runDriver constCompileOk noFile "ignored" ["-f", "missing.glsl"] =
      ⟨1, [], "Error: Could not open file: " ++
        (parseArgs ["-f", "missing.glsl"] defaultCLIOptions).inputFile ++ "\n",
        true, false⟩ :=
  c4_unopenable_file_rejected constCompileOk noFile "ignored"
    ["-f", "missing.glsl"] (by decide) rfl

/-- C5: the stage mapping sends exactly six tokens, one per shader-stage
variant (vertex, fragment, compute, geometry, tessellation-control spelled
"tess_control", tessellation-evaluation spelled "tess_evaluation"), to
their variants, and every other token maps to
"infer stage from source content". -/
theorem c5_stage_token_mapping :
    getShaderKind "vertex" = ShaderKind.vertex_shader ∧
    getShaderKind "fragment" = ShaderKind.fragment_shader ∧
    getShaderKind "compute" = ShaderKind.compute_shader ∧
    getShaderKind "geometry" = ShaderKind.geometry_shader ∧
    getShaderKind "tess_control" = ShaderKind.tess_control_shader ∧
    getShaderKind "tess_evaluation" = ShaderKind.tess_evaluation_shader ∧
    ∀ t : String, t ≠ "vertex" → t ≠ "fragment" → t ≠ "compute" →
      t ≠ "geometry" → t ≠ "tess_control" → t ≠ "tess_evaluation" →
      getShaderKind t = ShaderKind.glsl_infer_from_source := by
  refine ⟨by decide, by decide, by decide, by decide, by decide, by decide, ?_⟩
  intro t h1 h2 h3 h4 h5 h6
  simp [getShaderKind, h1, h2, h3, h4, h5, h6]

/-- C5 witness: an unrecognized token falls back to inference. -/
theorem c5_witness :
    getShaderKind "tessellation-control" = ShaderKind.glsl_infer_from_source :=
  c5_stage_token_mapping.2.2.2.2.2.2 "tessellation-control" (by decide)
    (by decide) (by decide) (by decide) (by decide) (by decide)

/-- C6 counterexample: with arguments `-n -O` the token `-O` is present
among the arguments but is consumed as the value of `-n`, so the compiler
is called with no optimization level set: an oracle that succeeds exactly
when the performance preset is requested makes this run exit 1, while a
lone `-O` makes it exit 0. -/
theorem c6_counterexample :
    "-O" ∈ (["-n", "-O"] : List String) ∧
    (mkCompileOptions
      (parseArgs ["-n", "-O"] defaultCLIOptions).optimize).optimizationLevel =
      none ∧
    (runDriver probeOptCompile noFile "x" ["-n", "-O"]).exitCode = 1 ∧
    (runDriver probeOptCompile noFile "x" ["-O"]).exitCode = 0 :=
  ⟨by decide, by decide, by decide, by decide⟩

/-- C6 (amended): the compiler is called with the performance preset iff
the argument scan set the optimize flag; `-O` sets the flag only when
reached in flag position (not consumed as the value of `-t`, `-n` or
`-f`): when `-O` is absent no optimization level is set, the preset is
requested only if `-O` is present, and an `-O` reached in flag position
always sets the flag. -/
theorem c6_optimization_iff_flag_parsed (args : List String) :
    ((mkCompileOptions
        (parseArgs args defaultCLIOptions).optimize).optimizationLevel =
        some OptimizationLevel.performance ↔
      (parseArgs args defaultCLIOptions).optimize = true) ∧
    ("-O" ∉ args →
      (mkCompileOptions
        (parseArgs args defaultCLIOptions).optimize).optimizationLevel = none) ∧
    ((parseArgs args defaultCLIOptions).optimize = true → "-O" ∈ args) ∧
    (∀ rest : List String, ∀ opts : CLIOptions,
      (parseArgs ("-O" :: rest) opts).optimize = true) := by
  refine ⟨?_, ?_, ?_, ?_⟩
  · cases hop : (parseArgs args defaultCLIOptions).optimize
    · simp [mkCompileOptions, CompileOptions.default]
    · simp [mkCompileOptions]
  · intro h
    rw [parseArgs_optimize_of_not_mem args defaultCLIOptions h]
    rfl
  · intro h
    rcases parseArgs_optimize_mem args defaultCLIOptions h with hm | ho
    · exact hm
    · exact absurd ho (by decide)
  · intro rest opts
    rw [parseArgs.eq_3]
    exact parseArgs_optimize_mono rest _ rfl

/-- C6 witness: with the single unrecognized argument `-x` no optimization
level is set, and an `-O` reached in flag position sets the flag. -/
theorem c6_witness :
    (mkCompileOptions
      (parseArgs ["-x"] defaultCLIOptions).optimize).optimizationLevel = none ∧
    (parseArgs ("-O" :: ["-x"]) defaultCLIOptions).optimize = true :=
  ⟨(c6_optimization_iff_flag_parsed ["-x"]).2.1 (by decide),
   (c6_optimization_iff_flag_parsed ["-x"]).2.2.2 ["-x"] defaultCLIOptions⟩

/-- C7: defaults.  Without `-n` the logical name passed to the compiler is
"shader"; without `-f` no input file is set and source acquisition
consumes the whole standard-input stream; without `-t` the stage is
"infer from source". -/
theorem c7_defaults (fs : String → Option String) (stdin : String)
    (args : List String) :
    ("-n" ∉ args → (parseArgs args defaultCLIOptions).inputName = "shader") ∧
    ("-f" ∉ args → (parseArgs args defaultCLIOptions).inputFile = "" ∧
      readSource fs stdin (parseArgs args defaultCLIOptions).inputFile =
        Except.ok stdin) ∧
    ("-t" ∉ args → (parseArgs args defaultCLIOptions).shaderKind =
      ShaderKind.glsl_infer_from_source) := by
  refine ⟨?_, ?_, ?_⟩
  · intro h
    exact parseArgs_inputName_of_not_mem args defaultCLIOptions h
  · intro h
    have hf := parseArgs_inputFile_of_not_mem args defaultCLIOptions h
    refine ⟨hf, ?_⟩
    rw [hf]
    rfl
  · intro h
    exact parseArgs_shaderKind_of_not_mem args defaultCLIOptions h

/-- C7 witness: with only `-O` on the command line all three defaults are
in effect. -/
theorem c7_witness :
    (parseArgs ["-O"] defaultCLIOptions).inputName = "shader" ∧
    ((parseArgs ["-O"] defaultCLIOptions).inputFile = "" ∧
      readSource noFile "main src" (parseArgs ["-O"] defaultCLIOptions).inputFile =
        Except.ok "main src") ∧
    (parseArgs ["-O"] defaultCLIOptions).shaderKind =
      ShaderKind.glsl_infer_from_source :=
  ⟨(c7_defaults noFile "main src" ["-O"]).1 (by decide),
   (c7_defaults noFile "main src" ["-O"]).2.1 (by decide),
   (c7_defaults noFile "main src" ["-O"]).2.2 (by decide)⟩

/-- C8: an argument that is none of `-t`, `-O`, `-n`, `-f`, reached by the
scanner in flag position (hence not a value consumed by one of those
flags), is silently ignored: from any scan state it leaves the options
unchanged, and the whole driver run (exit code, standard output, standard
error) is the same as without it. -/
theorem c8_unrecognized_arg_ignored
    (compile : String → ShaderKind → String → CompileOptions → SpvCompilationResult)
    (fs : String → Option String) (stdin : String)
    (x : String) (rest : List String)
    (h1 : x ≠ "-t") (h2 : x ≠ "-O") (h3 : x ≠ "-n") (h4 : x ≠ "-f") :
    (∀ opts : CLIOptions, parseArgs (x :: rest) opts = parseArgs rest opts) ∧
    runDriver compile fs stdin (x :: rest) = runDriver compile fs stdin rest := by
  have hp := parseArgs_skip x rest defaultCLIOptions h1 h2 h3 h4
  exact ⟨fun opts => parseArgs_skip x rest opts h1 h2 h3 h4,
    by simp only [runDriver, hp]⟩

/-- C8 witness: the unrecognized argument "--verbose" has no effect. -/
theorem c8_witness :
    (∀ opts : CLIOptions,
      parseArgs ["--verbose"] opts = parseArgs [] opts) ∧
    runDriver constCompileOk noFile "src text" ["--verbose"] =
      runDriver constCompileOk noFile "src text" [] :=
  c8_unrecognized_arg_ignored constCompileOk noFile "src text" "--verbose" []
    (by decide) (by decide) (by decide) (by decide)

/-- C9: `-f` with an empty-string path leaves the input-file option at its
default empty value, so the driver opens no file, reports no file error,
and reads the source from standard input, exactly as if `-f` had been
omitted; source acquisition on the empty path always yields the whole
standard-input stream. -/
theorem c9_empty_path_falls_back_to_stdin
    (compile : String → ShaderKind → String → CompileOptions → SpvCompilationResult)
    (fs : String → Option String) (stdin : String) (rest : List String) :
    runDriver compile fs stdin ("-f" :: "" :: rest) =
      runDriver compile fs stdin rest ∧
    readSource fs stdin "" = Except.ok stdin := by
  have hp : parseArgs ("-f" :: "" :: rest) defaultCLIOptions =
      parseArgs rest defaultCLIOptions := by
    rw [parseArgs.eq_5]
    rfl
  exact ⟨by simp only [runDriver, hp], rfl⟩

/-- C10 counterexample: the list `-n -t` ends with the value-taking flag
`-t` and no value follows it, yet processing is not as if `-t` were
absent: `-t` is consumed as the value of `-n`, the logical name becomes
"-t" instead of "shader", and a name-sensitive oracle makes the two runs
produce different output. -/
theorem c10_counterexample :
    (["-n", "-t"] : List String).getLast? = some "-t" ∧
    (parseArgs ["-n", "-t"] defaultCLIOptions).inputName = "-t" ∧
    (parseArgs ["-n"] defaultCLIOptions).inputName = "shader" ∧
    runDriver probeNameCompile noFile "x" ["-n", "-t"] ≠
      runDriver probeNameCompile noFile "x" ["-n"] :=
  ⟨by decide, by decide, by decide, by decide⟩

/-- C10 (amended): a trailing `-t`, `-n` or `-f` that the scanner reaches
in flag position (not consumed as the value of an immediately preceding
value-taking flag) is silently ignored: from any scan state the remaining
lone flag leaves all options unchanged, and the driver behaves exactly as
if the flag were absent. -/
theorem c10_trailing_flag_ignored
    (compile : String → ShaderKind → String → CompileOptions → SpvCompilationResult)
    (fs : String → Option String) (stdin : String) (f : String)
    (hf : f = "-t" ∨ f = "-n" ∨ f = "-f") :
    (∀ opts : CLIOptions, parseArgs [f] opts = opts) ∧
    runDriver compile fs stdin [f] = runDriver compile fs stdin [] := by
  have hp : ∀ opts : CLIOptions, parseArgs [f] opts = opts := by
    intro opts
    rcases hf with h | h | h <;> subst h <;> rfl
  exact ⟨hp, by simp only [runDriver, hp, parseArgs.eq_1]⟩

/-- C10 witness: a lone trailing `-f` is ignored and the run is identical
to one without it. -/
theorem c10_witness :
    (∀ opts : CLIOptions, parseArgs ["-f"] opts = opts) ∧
    runDriver constCompileOk noFile "src text" ["-f"] =
      runDriver constCompileOk noFile "src text" [] :=
  c10_trailing_flag_ignored constCompileOk noFile "src text" "-f"
    (Or.inr (Or.inr rfl))

end ShaderCLI
